import Mathlib

/-!
Verification of the session / element-handle lifecycle engine of a
browser-automation RPC server (`selenium_mcp.core.session_manager` and
`selenium_mcp.core.driver_factory`).

Python dictionaries are modelled as association lists with unique-key
semantics: lookup finds the first binding, insertion replaces an existing
binding in place or appends, deletion removes the binding.  Timestamps
(`time.time()`) are modelled as integers supplied explicitly to each
operation.  Fallible operations return an `Except` result *paired with*
the post-state, because the Python code can mutate state before raising.
-/

namespace SeleniumMCP

/-! ## Python dict model -/

/-- `d.get(k)`: first binding for `k`, if any. -/
def dictGet (k : String) : List (String × α) → Option α
  | [] => none
  | (k', v) :: rest => if k' = k then some v else dictGet k rest

/-- `d[k] = v`: replace the binding for `k` in place, or append a new one. -/
def dictInsert (k : String) (v : α) : List (String × α) → List (String × α)
  | [] => [(k, v)]
  | (k', v') :: rest =>
    if k' = k then (k, v) :: rest else (k', v') :: dictInsert k v rest

/-- `del d[k]` / `d.pop(k, None)`: drop the binding for `k`. -/
def dictRemove (k : String) (l : List (String × α)) : List (String × α) :=
  l.filter (fun p => p.1 ≠ k)

theorem dictGet_insert_self (k : String) (v : α) (l : List (String × α)) :
    dictGet k (dictInsert k v l) = some v := by
  induction l with
  | nil => simp [dictGet, dictInsert]
  | cons p rest ih =>
    obtain ⟨k', v'⟩ := p
    by_cases h : k' = k <;> simp [dictGet, dictInsert, h, ih]

theorem dictGet_insert_ne (k k' : String) (v : α) (l : List (String × α))
    (h : k' ≠ k) : dictGet k (dictInsert k' v l) = dictGet k l := by
  induction l with
  | nil => simp [dictGet, dictInsert, h]
  | cons p rest ih =>
    obtain ⟨k₀, v₀⟩ := p
    by_cases h₀ : k₀ = k'
    · simp [dictGet, dictInsert, h₀, h]
    · by_cases h₁ : k₀ = k <;> simp [dictGet, dictInsert, h₀, h₁, h.symm, ih]

theorem dictGet_remove_self (k : String) (l : List (String × α)) :
    dictGet k (dictRemove k l) = none := by
  induction l with
  | nil => rfl
  | cons p rest ih =>
    obtain ⟨k', v'⟩ := p
    by_cases h : k' = k <;> simp [dictGet, dictRemove, h] at ih ⊢ <;> simp [ih]

theorem dictGet_remove_ne (k k' : String) (l : List (String × α)) (h : k' ≠ k) :
    dictGet k (dictRemove k' l) = dictGet k l := by
  induction l with
  | nil => rfl
  | cons p rest ih =>
    obtain ⟨k₀, v₀⟩ := p
    by_cases h₀ : k₀ = k'
    · simp [dictGet, dictRemove, h₀, h, h.symm] at ih ⊢
      simp [ih]
    · by_cases h₁ : k₀ = k <;>
        simp [dictGet, dictRemove, h₀, h₁, h.symm] at ih ⊢ <;> simp [ih]

theorem dictGet_mem {k : String} {v : α} {l : List (String × α)}
    (h : dictGet k l = some v) : (k, v) ∈ l := by
  induction l with
  | nil => simp [dictGet] at h
  | cons p rest ih =>
    obtain ⟨k', v'⟩ := p
    by_cases h' : k' = k
    · subst h'; simp [dictGet] at h; simp [h]
    · simp [dictGet, h'] at h; exact List.mem_cons_of_mem _ (ih h)

theorem length_dictInsert_le (k : String) (v : α) (l : List (String × α)) :
    (dictInsert k v l).length ≤ l.length + 1 := by
  induction l with
  | nil => simp [dictInsert]
  | cons p rest ih =>
    obtain ⟨k', v'⟩ := p
    by_cases h : k' = k <;> simp [dictInsert, h] <;> omega

theorem length_dictInsert_of_mem (k : String) (v : α) (l : List (String × α))
    (h : dictGet k l ≠ none) : (dictInsert k v l).length = l.length := by
  induction l with
  | nil => simp [dictGet] at h
  | cons p rest ih =>
    obtain ⟨k', v'⟩ := p
    by_cases h' : k' = k
    · simp [dictInsert, h']
    · simp [dictGet, h'] at h
      simp [dictInsert, h', ih h]

theorem length_dictRemove_le (k : String) (l : List (String × α)) :
    (dictRemove k l).length ≤ l.length :=
  List.length_filter_le _ l

/-! ## Element-handle ID format

`register_element` issues IDs of the form `f"elem_{counter}"`.  The key
fact the registry depends on is that this format is injective in the
counter value, which in turn needs injectivity of Lean's decimal
`Nat.repr`; we prove that by evaluating the digit string back to a
number. -/

/-- The handle-ID format used by `BrowserSession.register_element`. -/
def elem_id_string (n : Nat) : String := "elem_" ++ Nat.repr n

/-- Decimal valuation of a digit string, used to invert `Nat.toDigits`. -/
def charsVal (l : List Char) : Nat :=
  l.foldl (fun a c => 10 * a + (c.toNat - 48)) 0

theorem digitChar_toNat (d : Nat) (h : d < 10) :
    (Nat.digitChar d).toNat = 48 + d := by
  interval_cases d <;> decide

theorem toDigitsCore_append (f n : Nat) (acc : List Char) :
    Nat.toDigitsCore 10 f n acc = Nat.toDigitsCore 10 f n [] ++ acc := by
  induction f generalizing n acc with
  | zero => simp [Nat.toDigitsCore]
  | succ f ih =>
    simp only [Nat.toDigitsCore]
    by_cases h : n / 10 = 0
    · simp [h]
    · simp only [h, if_false]
      rw [ih (n / 10) (Nat.digitChar (n % 10) :: acc),
          ih (n / 10) [Nat.digitChar (n % 10)]]
      simp

theorem charsVal_toDigitsCore (f n : Nat) (h : n < f) :
    charsVal (Nat.toDigitsCore 10 f n []) = n := by
  induction f generalizing n with
  | zero => omega
  | succ f ih =>
    simp only [Nat.toDigitsCore]
    by_cases h0 : n / 10 = 0
    · have hn : n < 10 := by omega
      simp only [h0, if_true]
      have hmod : n % 10 = n := Nat.mod_eq_of_lt hn
      simp [charsVal, hmod]
      rw [digitChar_toNat n hn]
      omega
    · have hdiv : n / 10 < f := by
        have h1 : 0 < n := by
          by_contra hc
          have : n = 0 := by omega
          simp [this] at h0
        have := Nat.div_lt_self h1 (by omega : 1 < 10)
        omega
      simp only [h0, if_false]
      rw [toDigitsCore_append]
      have : charsVal (Nat.toDigitsCore 10 f (n / 10) [] ++ [Nat.digitChar (n % 10)])
          = 10 * (n / 10) + ((Nat.digitChar (n % 10)).toNat - 48) := by
        simp [charsVal, List.foldl_append, charsVal_toDigitsCore, ih _ hdiv]
        rw [show List.foldl (fun a c => 10 * a + (c.toNat - 48)) 0
              (Nat.toDigitsCore 10 f (n / 10) []) = n / 10 from ih _ hdiv]
      rw [this, digitChar_toNat (n % 10) (Nat.mod_lt _ (by omega))]
      omega

theorem natRepr_injective : Function.Injective Nat.repr := by
  intro a b h
  have hdig : Nat.toDigits 10 a = Nat.toDigits 10 b := by
    have := congrArg String.data h
    simpa [Nat.repr, List.asString] using this
  have hval := congrArg charsVal hdig
  simp only [Nat.toDigits] at hval
  rwa [charsVal_toDigitsCore _ a (Nat.lt_succ_self a),
       charsVal_toDigitsCore _ b (Nat.lt_succ_self b)] at hval

theorem elem_id_string_injective : Function.Injective elem_id_string := by
  intro a b h
  apply natRepr_injective
  have hd := congrArg String.data h
  simp only [elem_id_string] at hd
  have hd' : "elem_".data ++ (Nat.repr a).data
      = "elem_".data ++ (Nat.repr b).data := hd
  have hlist := List.append_cancel_left hd'
  exact congrArg String.mk hlist

/-! ## Data model

`WebElement` is the external driver's element reference; its `stale` flag
says whether the liveness probe (`element.is_enabled()` in
`BrowserSession.get_element`) raises `StaleElementReferenceException`.
`Driver` is the remote WebDriver handle returned by the factory; its
`quit_fails` flag says whether `driver.quit()` raises during teardown. -/

structure WebElement where
  ref : Nat
  stale : Bool
deriving DecidableEq, Repr

structure Driver where
  driver_id : Nat
  grid_session_id : String
  capabilities : List (String × String)
  quit_fails : Bool
deriving DecidableEq, Repr

/-- The error taxonomy of `selenium_mcp.core.exceptions` (the subset this
core raises): `SessionNotFoundError`, `SessionLimitError`,
`ElementNotFoundError`, `ElementStaleError`, `GridConnectionError`, plus
the plain `ValueError` that `DriverFactory._build_options` raises for an
unsupported browser type. -/
inductive MCPError where
  | sessionNotFound (session_id : String)
  | sessionLimit (max_sessions : Nat)
  | elementNotFound (element_id : String)
  | elementStale (element_id : String)
  | gridConnection (grid_url : String) (cause : String)
  | valueError (msg : String)
deriving DecidableEq, Repr

/-- Whether an error is the structured resource-provisioning error
(`GridConnectionError`) that wraps the factory's underlying cause. -/
def MCPError.is_grid_connection : MCPError → Bool
  | .gridConnection _ _ => true
  | _ => false

/-- `BrowserSession` (dataclass): one external driver handle plus the
per-session element registry (`_element_map`, `_element_counter`) and
activity timestamps. -/
structure BrowserSession where
  session_id : String
  driver : Driver
  browser : String
  created_at : Int
  last_activity : Int
  capabilities : List (String × String)
  record_video : Bool
  selenium_session_id : Option String
  element_map : List (String × WebElement)
  element_counter : Nat
deriving DecidableEq, Repr

namespace BrowserSession

/-- `touch`: set `last_activity = time.time()`. -/
def touch (now : Int) (s : BrowserSession) : BrowserSession :=
  { s with last_activity := now }

/-- `register_element`: increment the counter, format the ID, store the
element, touch, return the ID. -/
def register_element (now : Int) (e : WebElement) (s : BrowserSession) :
    String × BrowserSession :=
  let counter := s.element_counter + 1
  let element_id := elem_id_string counter
  let s1 := { s with
    element_counter := counter
    element_map := dictInsert element_id e s.element_map }
  (element_id, s1.touch now)

/-- `register_elements`: `[self.register_element(el) for el in elements]`. -/
def register_elements (now : Int) (es : List WebElement) (s : BrowserSession) :
    List String × BrowserSession :=
  match es with
  | [] => ([], s)
  | e :: rest =>
    let r1 := s.register_element now e
    let r2 := r1.2.register_elements now rest
    (r1.1 :: r2.1, r2.2)

/-- `get_element`: registry lookup, then liveness probe; on a stale
reference the entry is deleted before `ElementStaleError` is raised. -/
def get_element (now : Int) (element_id : String) (s : BrowserSession) :
    Except MCPError WebElement × BrowserSession :=
  match dictGet element_id s.element_map with
  | none => (.error (.elementNotFound element_id), s)
  | some element =>
    if element.stale then
      (.error (.elementStale element_id),
       { s with element_map := dictRemove element_id s.element_map })
    else
      (.ok element, s.touch now)

/-- `remove_element`. -/
def remove_element (element_id : String) (s : BrowserSession) :
    Bool × BrowserSession :=
  match dictGet element_id s.element_map with
  | some _ => (true, { s with element_map := dictRemove element_id s.element_map })
  | none => (false, s)

/-- `clear_elements`: empties the map and resets `_element_counter` to 0. -/
def clear_elements (s : BrowserSession) : Nat × BrowserSession :=
  (s.element_map.length, { s with element_map := [], element_counter := 0 })

/-- `element_count` property. -/
def element_count (s : BrowserSession) : Nat := s.element_map.length

end BrowserSession

/-! ## Driver factory -/

/-- What happens when `webdriver.Remote(...)` is actually attempted: the
Grid either hands back a driver or the call raises a
`WebDriverException` with some message.  This is the external,
non-deterministic part of `DriverFactory.create`, passed in explicitly. -/
inductive GridOutcome where
  | driver (d : Driver)
  | webDriverFailure (msg : String)
deriving DecidableEq, Repr

structure DriverFactory where
  grid_url : String
deriving DecidableEq, Repr

/-- Python's `str.lower()` on the browser-kind strings (ASCII). -/
def str_lower (s : String) : String := ⟨s.data.map Char.toLower⟩

/-- The browser kinds `DriverFactory._build_options` accepts. -/
def supported_browsers : List String := ["chrome", "firefox", "edge"]

/-- `DriverFactory.create`: builds options first (raising `ValueError` on
an unsupported browser type, before any Grid call), then performs the
driver creation; a `WebDriverException` is wrapped into
`GridConnectionError(grid_url, cause)`. -/
def DriverFactory.create (f : DriverFactory) (browser : String)
    (outcome : GridOutcome) : Except MCPError Driver :=
  if supported_browsers.contains (str_lower browser) then
    match outcome with
    | .driver d => .ok d
    | .webDriverFailure msg => .error (.gridConnection f.grid_url msg)
  else
    .error (.valueError browser)

/-! ## Session manager -/

/-- `SessionManager`: the bounded session registry plus the expiration
policy configuration. -/
structure SessionManager where
  max_sessions : Nat
  max_lifetime_seconds : Int
  max_idle_seconds : Int
  sessions : List (String × BrowserSession)
deriving DecidableEq, Repr

namespace SessionManager

/-- `SessionManager.__init__`: empty registry. -/
def init (max_sessions : Nat) (max_lifetime_seconds max_idle_seconds : Int) :
    SessionManager :=
  { max_sessions, max_lifetime_seconds, max_idle_seconds, sessions := [] }

/-- The `BrowserSession(...)` construction inside `create_session`. -/
def new_session (session_id : String) (driver : Driver) (browser : String)
    (now : Int) (record_video : Bool) : BrowserSession :=
  { session_id, driver, browser
    created_at := now, last_activity := now
    capabilities := driver.capabilities
    record_video
    selenium_session_id := some driver.grid_session_id
    element_map := [], element_counter := 0 }

/-- `create_session`: capacity check under the registry lock, then the
factory call, then construction and insertion of the new session.
`uuid_hex` stands for `uuid.uuid4().hex[:16]` and `outcome` for the
Grid's response, both supplied by the environment. -/
def create_session (f : DriverFactory) (outcome : GridOutcome)
    (uuid_hex : String) (now : Int) (browser : String) (record_video : Bool)
    (m : SessionManager) : Except MCPError BrowserSession × SessionManager :=
  if m.sessions.length ≥ m.max_sessions then
    (.error (.sessionLimit m.max_sessions), m)
  else
    match f.create browser outcome with
    | .error e => (.error e, m)
    | .ok driver =>
      let session_id := "sess_" ++ uuid_hex
      let session := new_session session_id driver browser now record_video
      (.ok session, { m with sessions := dictInsert session_id session m.sessions })

/-- `get_session`: lookup; touches the session on success. -/
def get_session (now : Int) (session_id : String) (m : SessionManager) :
    Except MCPError BrowserSession × SessionManager :=
  match dictGet session_id m.sessions with
  | none => (.error (.sessionNotFound session_id), m)
  | some session =>
    let touched := session.touch now
    (.ok touched, { m with sessions := dictInsert session_id touched m.sessions })

/-- Observable outcome of `close_session`: the returned bool, whether the
teardown (`driver.quit`) was attempted, and whether it succeeded.  A
teardown failure is logged and swallowed, never propagated. -/
structure CloseResult where
  found : Bool
  teardown_attempted : Bool
  teardown_ok : Bool
deriving DecidableEq, Repr

/-- `close_session`: pop the session from the registry first, then quit
its driver; the registry entry stays removed whatever `quit` does. -/
def close_session (session_id : String) (m : SessionManager) :
    CloseResult × SessionManager :=
  match dictGet session_id m.sessions with
  | none => (⟨false, false, true⟩, m)
  | some session =>
    let m1 := { m with sessions := dictRemove session_id m.sessions }
    (⟨true, true, !session.driver.quit_fails⟩, m1)

/-- The reason `get_expired_sessions` logs for an expired session. -/
inductive ExpiryReason where
  | lifetime
  | idle
deriving DecidableEq, Repr

/-- The per-session check inside `get_expired_sessions`: lifetime branch
first, idle branch only otherwise (`elif`). -/
def expiry_check (now max_lifetime max_idle : Int) (s : BrowserSession) :
    Option ExpiryReason :=
  let age := now - s.created_at
  let idle := now - s.last_activity
  if age > max_lifetime then some .lifetime
  else if idle > max_idle then some .idle
  else none

/-- `get_expired_sessions`, keeping the logged reason alongside each ID. -/
def get_expired_sessions (now : Int) (m : SessionManager) :
    List (String × ExpiryReason) :=
  m.sessions.filterMap fun p =>
    (expiry_check now m.max_lifetime_seconds m.max_idle_seconds p.2).map
      fun r => (p.1, r)

/-- The `for session_id in expired: close_session(...)` loop shared by
`sweep_expired` and `close_all`. -/
def close_many (ids : List String) (m : SessionManager) : Nat × SessionManager :=
  match ids with
  | [] => (0, m)
  | sid :: rest =>
    let r1 := close_session sid m
    let r2 := close_many rest r1.2
    (if r1.1.found then r2.1 + 1 else r2.1, r2.2)

/-- `sweep_expired`: close every session selected by `get_expired_sessions`. -/
def sweep_expired (now : Int) (m : SessionManager) : Nat × SessionManager :=
  close_many ((get_expired_sessions now m).map Prod.fst) m

/-- `close_all`: close every registered session. -/
def close_all (m : SessionManager) : Nat × SessionManager :=
  close_many (m.sessions.map Prod.fst) m

/-- `session_count` property. -/
def session_count (m : SessionManager) : Nat := m.sessions.length

end SessionManager

/-! ## Operation traces

To reason about "every sequence of calls" we close the API under a small
operation language and fold it over a state.  `ElemOp` covers the
per-session element-registry API, `Op` the session-manager API. -/

inductive ElemOp where
  | registerOp (now : Int) (e : WebElement)
  | registerManyOp (now : Int) (es : List WebElement)
  | getElemOp (now : Int) (element_id : String)
  | removeElemOp (element_id : String)
  | clearOp
  | touchOp (now : Int)
deriving DecidableEq, Repr

/-- State effect of one element-registry call. -/
def applyElemOp (op : ElemOp) (s : BrowserSession) : BrowserSession :=
  match op with
  | .registerOp now e => (s.register_element now e).2
  | .registerManyOp now es => (s.register_elements now es).2
  | .getElemOp now element_id => (s.get_element now element_id).2
  | .removeElemOp element_id => (s.remove_element element_id).2
  | .clearOp => s.clear_elements.2
  | .touchOp now => s.touch now

def applyElemOps (ops : List ElemOp) (s : BrowserSession) : BrowserSession :=
  match ops with
  | [] => s
  | op :: rest => applyElemOps rest (applyElemOp op s)

/-- The handle IDs issued by one element-registry call. -/
def elemOpIds (op : ElemOp) (s : BrowserSession) : List String :=
  match op with
  | .registerOp now e => [(s.register_element now e).1]
  | .registerManyOp now es => (s.register_elements now es).1
  | _ => []

/-- How many handle IDs one call issues. -/
def elemOpCount (op : ElemOp) : Nat :=
  match op with
  | .registerOp _ _ => 1
  | .registerManyOp _ es => es.length
  | _ => 0

/-- All handle IDs issued along a call sequence, in issue order. -/
def issuedIds (ops : List ElemOp) (s : BrowserSession) : List String :=
  match ops with
  | [] => []
  | op :: rest => elemOpIds op s ++ issuedIds rest (applyElemOp op s)

/-- Total number of handle IDs issued along a call sequence. -/
def issuedTotal (ops : List ElemOp) : Nat := (ops.map elemOpCount).sum

inductive Op where
  | createOp (outcome : GridOutcome) (uuid_hex : String) (now : Int)
      (browser : String) (record_video : Bool)
  | getOp (now : Int) (session_id : String)
  | closeOp (session_id : String)
  | sweepOp (now : Int)
  | closeAllOp
  | listOp
  | elemOp (session_id : String) (eop : ElemOp)
deriving DecidableEq, Repr

/-- The session ID a `createOp` would register, if any (used to state
freshness of generated UUIDs). -/
def opCreatesId (op : Op) : Option String :=
  match op with
  | .createOp _ uuid_hex _ _ _ => some ("sess_" ++ uuid_hex)
  | _ => none

/-- State effect of one session-manager call.  Element calls reach the
session object through the registry and mutate it in place. -/
def applyOp (f : DriverFactory) (op : Op) (m : SessionManager) : SessionManager :=
  match op with
  | .createOp outcome uuid_hex now browser record_video =>
    (m.create_session f outcome uuid_hex now browser record_video).2
  | .getOp now session_id => (m.get_session now session_id).2
  | .closeOp session_id => (m.close_session session_id).2
  | .sweepOp now => (m.sweep_expired now).2
  | .closeAllOp => m.close_all.2
  | .listOp => m
  | .elemOp session_id eop =>
    match dictGet session_id m.sessions with
    | none => m
    | some s =>
      { m with sessions := dictInsert session_id (applyElemOp eop s) m.sessions }

def applyOps (f : DriverFactory) (ops : List Op) (m : SessionManager) :
    SessionManager :=
  match ops with
  | [] => m
  | op :: rest => applyOps f rest (applyOp f op m)

/-! ## Sweeper loop

`SessionSweeper._sweep_loop` is
`while not shutdown.is_set(): try: wait_for(shutdown.wait(), interval)
except TimeoutError: sweep()`.  One loop iteration is abstracted by what
its wait boundary observed: `waitTimedOut` means the interval elapsed
with the shutdown signal still unset (only then does `wait_for` raise
`TimeoutError`); `waitSignalled` means the signal fired during the wait
(the wait returns, the `while` condition is rechecked and fails);
`waitCancelled` means `stop()` cancelled the task at the wait.
`setBeforeCheck` means the signal was already observed set at the
top-of-loop check. -/

inductive LoopEvent where
  | setBeforeCheck
  | waitSignalled
  | waitCancelled
  | waitTimedOut
deriving DecidableEq, Repr

inductive SweepAction where
  | sweepPass
deriving DecidableEq, Repr

/-- The scan-and-evict passes the loop performs, given the observations
at its successive wait boundaries: a pass runs only after a wait that
timed out; any boundary at which the signal (or cancellation) is
observed ends the loop with no further pass. -/
def sweep_loop : List LoopEvent → List SweepAction
  | [] => []
  | .waitTimedOut :: rest => .sweepPass :: sweep_loop rest
  | .setBeforeCheck :: _ => []
  | .waitSignalled :: _ => []
  | .waitCancelled :: _ => []

/-! ## Helper lemmas -/

theorem mem_dictInsert {p : String × α} {k : String} {v : α}
    {l : List (String × α)} (h : p ∈ dictInsert k v l) : p = (k, v) ∨ p ∈ l := by
  induction l with
  | nil => simpa [dictInsert] using h
  | cons q rest ih =>
    obtain ⟨k', v'⟩ := q
    by_cases hk : k' = k
    · simp [dictInsert, hk] at h
      rcases h with h | h
      · exact Or.inl (by simp [h])
      · exact Or.inr (by simp [h])
    · simp [dictInsert, hk] at h
      rcases h with h | h
      · exact Or.inr (by simp [h])
      · rcases ih h with h' | h'
        · exact Or.inl h'
        · exact Or.inr (by simp [h'])

theorem dictGet_eq_of_mem_nodup {k : String} {v : α} {l : List (String × α)}
    (hnd : (l.map Prod.fst).Nodup) (h : (k, v) ∈ l) : dictGet k l = some v := by
  induction l with
  | nil => simp at h
  | cons q rest ih =>
    obtain ⟨k', v'⟩ := q
    simp only [List.map_cons, List.nodup_cons] at hnd
    rcases List.mem_cons.1 h with h' | h'
    · injection h' with h1 h2
      subst h1; subst h2
      simp [dictGet]
    · have hk : k' ≠ k := by
        intro hkk
        exact hnd.1 (hkk ▸ List.mem_map_of_mem Prod.fst h')
      simp [dictGet, hk, ih hnd.2 h']

/-! ## Sample values used by counterexamples and witnesses -/

def d0 : Driver := { driver_id := 0, grid_session_id := "grid0", capabilities := [], quit_fails := false }

def dQuitFails : Driver := { driver_id := 1, grid_session_id := "grid1", capabilities := [], quit_fails := true }

def fac0 : DriverFactory := { grid_url := "http://grid:4444" }

/-- A freshly created session, as `create_session` would build it. -/
def sFresh : BrowserSession := SessionManager.new_session "sess_a" d0 "chrome" 0 false

/-! ## C10: failed lookups leave all state unchanged -/

/-- C10: a `get_session` miss fails with `SessionNotFoundError` and
leaves the manager (every session's `last_activity` included) untouched,
and a `get_element` miss fails with `ElementNotFoundError` and leaves the
session (element map and `last_activity` included) untouched; the
timestamp is touched only on the success paths. -/
theorem c10_failed_lookups_state_unchanged :
    (∀ (now : Int) (sid : String) (m : SessionManager),
       dictGet sid m.sessions = none →
       m.get_session now sid = (.error (.sessionNotFound sid), m)) ∧
    (∀ (now : Int) (eid : String) (s : BrowserSession),
       dictGet eid s.element_map = none →
       s.get_element now eid = (.error (.elementNotFound eid), s)) := by
  constructor
  · intro now sid m h
    simp [SessionManager.get_session, h]
  · intro now eid s h
    simp [BrowserSession.get_element, h]

/-- Witness for C10 at concrete inputs. -/
theorem c10_witness :
    SessionManager.get_session 5 "sess_zz" (SessionManager.init 2 900 300) =
      (.error (.sessionNotFound "sess_zz"), SessionManager.init 2 900 300) ∧
    BrowserSession.get_element 5 "elem_9" sFresh =
      (.error (.elementNotFound "elem_9"), sFresh) :=
  ⟨c10_failed_lookups_state_unchanged.1 5 "sess_zz" _ (by decide),
   c10_failed_lookups_state_unchanged.2 5 "elem_9" sFresh (by decide)⟩

/-! ## C5: close_session pops first, swallows teardown failure -/

/-- C5: `close_session` pops the registry entry and only then tears the
driver down; the returned result and the final registry state are the
same whether or not `driver.quit` fails (the failure is only logged), the
entry stays removed regardless, and the boolean is `true` exactly when a
session with that ID was present at the start of the call. -/
theorem c5_close_session_pop_then_teardown :
    ∀ (sid : String) (m : SessionManager),
      (∀ s, dictGet sid m.sessions = some s →
        m.close_session sid =
          (⟨true, true, !s.driver.quit_fails⟩,
           { m with sessions := dictRemove sid m.sessions })) ∧
      (dictGet sid m.sessions = none →
        m.close_session sid = (⟨false, false, true⟩, m)) := by
  intro sid m
  constructor
  · intro s h
    simp [SessionManager.close_session, h]
  · intro h
    simp [SessionManager.close_session, h]

/-- Witness for C5: closing a session whose driver teardown fails still
removes the entry and returns `true`; closing an absent ID returns
`false`. -/
theorem c5_witness :
    SessionManager.close_session "sess_b"
        { max_sessions := 2, max_lifetime_seconds := 900, max_idle_seconds := 300,
          sessions := [("sess_b", SessionManager.new_session "sess_b" dQuitFails "chrome" 0 false)] } =
      (⟨true, true, false⟩,
       { max_sessions := 2, max_lifetime_seconds := 900, max_idle_seconds := 300,
         sessions := [] }) ∧
    SessionManager.close_session "sess_b" (SessionManager.init 2 900 300) =
      (⟨false, false, true⟩, SessionManager.init 2 900 300) := by
  constructor
  · have h := (c5_close_session_pop_then_teardown "sess_b"
      { max_sessions := 2, max_lifetime_seconds := 900, max_idle_seconds := 300,
        sessions := [("sess_b", SessionManager.new_session "sess_b" dQuitFails "chrome" 0 false)] }).1
      (SessionManager.new_session "sess_b" dQuitFails "chrome" 0 false) (by decide)
    simpa [dQuitFails, SessionManager.new_session, dictRemove] using h
  · exact (c5_close_session_pop_then_teardown "sess_b" (SessionManager.init 2 900 300)).2 (by decide)

/-! ## C1 counterexample: clear_elements resets the ID counter -/

/-- C1 counterexample: `clear_elements` sets `_element_counter = 0`, so
the first `register_element` after a clear returns `"elem_1"` again — the
very ID issued before the clear.  The claim that an ID issued after a
`clearElements` call never equals an ID issued before it is false. -/
theorem c1_counterexample_id_reissued_after_clear :
    (((sFresh.register_element 1 ⟨10, false⟩).2.clear_elements).2.register_element 2
        ⟨11, false⟩).1 =
      (sFresh.register_element 1 ⟨10, false⟩).1 ∧
    (sFresh.register_element 1 ⟨10, false⟩).1 = "elem_1" := by
  constructor <;> rfl

/-! ## C2 counterexample: a purged stale handle can be reissued -/

/-- C2 counterexample: after a stale handle `"elem_1"` is auto-purged by
`get_element`, a `clear_elements` call resets the counter and the next
`register_element` reissues `"elem_1"`; a subsequent `get_element` with
that same ID then *succeeds* instead of failing with
`ElementNotFoundError`, so "every subsequent getElement call with the
same ID fails with HandleNotFound" is false. -/
theorem c2_counterexample_stale_id_resolvable_again :
    (sFresh.register_element 1 ⟨7, true⟩).1 = "elem_1" ∧
    ((sFresh.register_element 1 ⟨7, true⟩).2.get_element 2 "elem_1").1 =
      .error (.elementStale "elem_1") ∧
    (((((sFresh.register_element 1 ⟨7, true⟩).2.get_element 2
          "elem_1").2.clear_elements).2.register_element 3 ⟨8, false⟩).2.get_element 4
            "elem_1").1 = .ok ⟨8, false⟩ := by
  refine ⟨rfl, rfl, rfl⟩

/-! ## C4 counterexample: not every factory failure is wrapped -/

/-- C4 counterexample: `DriverFactory.create` with an unsupported browser
type fails (raising `ValueError` from `_build_options`) before any Grid
call, and `create_session` surfaces that `ValueError` unchanged: the
registry is untouched but the caller does *not* receive the
resource-provisioning error (`GridConnectionError`) the claim promises
for every factory failure. -/
theorem c4_counterexample_unsupported_browser_not_wrapped :
    fac0.create "safari" (.driver d0) = .error (.valueError "safari") ∧
    SessionManager.create_session fac0 (.driver d0) "u1" 0 "safari" false
        (SessionManager.init 10 900 300) =
      (.error (.valueError "safari"), SessionManager.init 10 900 300) ∧
    (MCPError.valueError "safari").is_grid_connection = false := by
  refine ⟨rfl, rfl, rfl⟩

/-! ## C3: the registry never exceeds max_sessions -/

/-- The Session Registry capacity invariant. -/
def capacity_inv (m : SessionManager) : Prop :=
  m.sessions.length ≤ m.max_sessions

theorem close_session_sessions_le (sid : String) (m : SessionManager) :
    ((m.close_session sid).2).sessions.length ≤ m.sessions.length := by
  unfold SessionManager.close_session
  cases h : dictGet sid m.sessions with
  | none => simp
  | some s => simpa using length_dictRemove_le sid m.sessions

theorem close_session_config (sid : String) (m : SessionManager) :
    ((m.close_session sid).2).max_sessions = m.max_sessions ∧
    ((m.close_session sid).2).max_lifetime_seconds = m.max_lifetime_seconds ∧
    ((m.close_session sid).2).max_idle_seconds = m.max_idle_seconds := by
  unfold SessionManager.close_session
  cases h : dictGet sid m.sessions <;> simp

theorem close_many_sessions_le (ids : List String) (m : SessionManager) :
    ((SessionManager.close_many ids m).2).sessions.length ≤ m.sessions.length := by
  induction ids generalizing m with
  | nil => simp [SessionManager.close_many]
  | cons sid rest ih =>
    calc ((SessionManager.close_many (sid :: rest) m).2).sessions.length
        = ((SessionManager.close_many rest (m.close_session sid).2).2).sessions.length := rfl
      _ ≤ ((m.close_session sid).2).sessions.length := ih _
      _ ≤ m.sessions.length := close_session_sessions_le sid m

theorem close_many_config (ids : List String) (m : SessionManager) :
    ((SessionManager.close_many ids m).2).max_sessions = m.max_sessions := by
  induction ids generalizing m with
  | nil => rfl
  | cons sid rest ih =>
    calc ((SessionManager.close_many (sid :: rest) m).2).max_sessions
        = ((SessionManager.close_many rest (m.close_session sid).2).2).max_sessions := rfl
      _ = ((m.close_session sid).2).max_sessions := ih _
      _ = m.max_sessions := (close_session_config sid m).1

theorem get_session_sessions_length (now : Int) (sid : String) (m : SessionManager) :
    ((m.get_session now sid).2).sessions.length = m.sessions.length := by
  unfold SessionManager.get_session
  cases h : dictGet sid m.sessions with
  | none => simp
  | some s =>
    simpa using length_dictInsert_of_mem sid (s.touch now) m.sessions (by simp [h])

theorem applyOp_capacity (f : DriverFactory) (op : Op) (m : SessionManager)
    (h : capacity_inv m) : capacity_inv (applyOp f op m) := by
  cases op with
  | createOp outcome uh now b rv =>
    simp only [applyOp, SessionManager.create_session]
    by_cases hcap : m.sessions.length ≥ m.max_sessions
    · simpa [hcap] using h
    · cases hf : f.create b outcome with
      | error e => simpa [hcap, hf] using h
      | ok d =>
        simp only [hcap, if_false, hf, capacity_inv]
        have hle := length_dictInsert_le ("sess_" ++ uh)
          (SessionManager.new_session ("sess_" ++ uh) d b now rv) m.sessions
        simp only [ge_iff_le, not_le] at hcap
        simpa using Nat.le_trans hle hcap
  | getOp now sid =>
    unfold capacity_inv at h ⊢
    have h1 := get_session_sessions_length now sid m
    have h2 : ((m.get_session now sid).2).max_sessions = m.max_sessions := by
      unfold SessionManager.get_session
      cases hg : dictGet sid m.sessions <;> simp
    simp only [applyOp]
    omega
  | closeOp sid =>
    unfold capacity_inv at h ⊢
    have h1 := close_session_sessions_le sid m
    have h2 := (close_session_config sid m).1
    simp only [applyOp]
    omega
  | sweepOp now =>
    unfold capacity_inv at h ⊢
    have h1 := close_many_sessions_le ((m.get_expired_sessions now).map Prod.fst) m
    have h2 := close_many_config ((m.get_expired_sessions now).map Prod.fst) m
    simp only [applyOp, SessionManager.sweep_expired]
    omega
  | closeAllOp =>
    unfold capacity_inv at h ⊢
    have h1 := close_many_sessions_le (m.sessions.map Prod.fst) m
    have h2 := close_many_config (m.sessions.map Prod.fst) m
    simp only [applyOp, SessionManager.close_all]
    omega
  | listOp => exact h
  | elemOp sid eop =>
    unfold capacity_inv at h ⊢
    simp only [applyOp]
    cases hg : dictGet sid m.sessions with
    | none => exact h
    | some s =>
      have := length_dictInsert_of_mem sid (applyElemOp eop s) m.sessions (by simp [hg])
      simpa [this] using h

theorem applyOps_capacity (f : DriverFactory) (ops : List Op) (m : SessionManager)
    (h : capacity_inv m) : capacity_inv (applyOps f ops m) := by
  induction ops generalizing m with
  | nil => exact h
  | cons op rest ih => exact ih _ (applyOp_capacity f op m h)

/-- C3: every state reachable from a fresh manager by any sequence of
API calls holds at most `max_sessions` sessions, and `create_session`
invoked when the count has already reached the bound fails with
`SessionLimitError` and leaves the registry unchanged, so no step can
push the count past the bound. -/
theorem c3_capacity_bound :
    (∀ (f : DriverFactory) (ops : List Op) (maxS : Nat) (L I : Int),
       (applyOps f ops (SessionManager.init maxS L I)).sessions.length ≤
         (applyOps f ops (SessionManager.init maxS L I)).max_sessions) ∧
    (∀ (f : DriverFactory) (outcome : GridOutcome) (uuid_hex : String) (now : Int)
       (browser : String) (rv : Bool) (m : SessionManager),
       m.max_sessions ≤ m.sessions.length →
       m.create_session f outcome uuid_hex now browser rv =
         (.error (.sessionLimit m.max_sessions), m)) := by
  constructor
  · intro f ops maxS L I
    exact applyOps_capacity f ops _ (by simp [SessionManager.init, capacity_inv])
  · intro f outcome uuid_hex now browser rv m h
    simp [SessionManager.create_session, h]

/-- Witness for C3: a two-create trace against a capacity-1 manager, and
a concrete at-capacity `create_session` failing with the limit error. -/
theorem c3_witness :
    ((applyOps fac0
        [.createOp (.driver d0) "aaaa" 0 "chrome" false,
         .createOp (.driver d0) "bbbb" 1 "chrome" false]
        (SessionManager.init 1 900 300)).sessions.length ≤
      (applyOps fac0
        [.createOp (.driver d0) "aaaa" 0 "chrome" false,
         .createOp (.driver d0) "bbbb" 1 "chrome" false]
        (SessionManager.init 1 900 300)).max_sessions) ∧
    SessionManager.create_session fac0 (.driver d0) "cccc" 2 "chrome" false
        { max_sessions := 1, max_lifetime_seconds := 900, max_idle_seconds := 300,
          sessions := [("sess_aaaa", sFresh)] } =
      (.error (.sessionLimit 1),
       { max_sessions := 1, max_lifetime_seconds := 900, max_idle_seconds := 300,
         sessions := [("sess_aaaa", sFresh)] }) :=
  ⟨c3_capacity_bound.1 fac0 _ 1 900 300,
   c3_capacity_bound.2 fac0 (.driver d0) "cccc" 2 "chrome" false _ (by decide)⟩

/-! ## Element-registration characterization (C8, amended C1) -/

theorem register_element_fst (now : Int) (e : WebElement) (s : BrowserSession) :
    (s.register_element now e).1 = elem_id_string (s.element_counter + 1) := rfl

theorem register_element_counter (now : Int) (e : WebElement) (s : BrowserSession) :
    (s.register_element now e).2.element_counter = s.element_counter + 1 := rfl

theorem register_element_map (now : Int) (e : WebElement) (s : BrowserSession) :
    (s.register_element now e).2.element_map =
      dictInsert (elem_id_string (s.element_counter + 1)) e s.element_map := rfl

theorem register_elements_counter (now : Int) (es : List WebElement)
    (s : BrowserSession) :
    (s.register_elements now es).2.element_counter =
      s.element_counter + es.length := by
  induction es generalizing s with
  | nil => rfl
  | cons e rest ih =>
    have h := ih (s.register_element now e).2
    rw [register_element_counter] at h
    simp only [BrowserSession.register_elements, List.length_cons]
    rw [h]
    omega

theorem register_elements_ids (now : Int) (es : List WebElement)
    (s : BrowserSession) :
    (s.register_elements now es).1 =
      (List.range' (s.element_counter + 1) es.length).map elem_id_string := by
  induction es generalizing s with
  | nil => rfl
  | cons e rest ih =>
    have h := ih (s.register_element now e).2
    rw [register_element_counter] at h
    simp only [BrowserSession.register_elements, List.length_cons, List.range'_succ,
      List.map_cons]
    rw [h, register_element_fst]

theorem register_elements_get_stable (now : Int) (es : List WebElement)
    (s : BrowserSession) (j : Nat) (hj : j ≤ s.element_counter) :
    dictGet (elem_id_string j) (s.register_elements now es).2.element_map =
      dictGet (elem_id_string j) s.element_map := by
  induction es generalizing s with
  | nil => rfl
  | cons e rest ih =>
    have hne : elem_id_string (s.element_counter + 1) ≠ elem_id_string j := by
      intro hcontra
      have := elem_id_string_injective hcontra
      omega
    have h1 := ih (s.register_element now e).2
      (by rw [register_element_counter]; omega)
    simp only [BrowserSession.register_elements]
    rw [h1, register_element_map, dictGet_insert_ne _ _ _ _ hne]

theorem register_elements_get_new (now : Int) (es : List WebElement)
    (s : BrowserSession) :
    ∀ i, i < es.length →
      dictGet (elem_id_string (s.element_counter + 1 + i))
        (s.register_elements now es).2.element_map = es[i]? := by
  induction es generalizing s with
  | nil => intro i hi; simp at hi
  | cons e rest ih =>
    intro i hi
    cases i with
    | zero =>
      simp only [BrowserSession.register_elements, Nat.add_zero]
      rw [register_elements_get_stable now rest (s.register_element now e).2
            (s.element_counter + 1) (by rw [register_element_counter]),
          register_element_map, dictGet_insert_self]
      simp
    | succ i' =>
      have h := ih (s.register_element now e).2 i'
        (by simpa using Nat.lt_of_succ_lt_succ hi)
      rw [register_element_counter] at h
      have harith : s.element_counter + 1 + (i' + 1) = s.element_counter + 1 + 1 + i' := by
        omega
      simp only [BrowserSession.register_elements, harith]
      rw [h]
      simp

/-- C8: `register_elements` returns one handle ID per input element, in
input order — the IDs are exactly the result of registering each element
sequentially (consecutive counter values starting after the current
counter) — and afterwards the i-th issued ID maps to the i-th input
element in the registry. -/
theorem c8_register_elements_batch :
    ∀ (now : Int) (es : List WebElement) (s : BrowserSession),
      (s.register_elements now es).1.length = es.length ∧
      (s.register_elements now es).1 =
        (List.range' (s.element_counter + 1) es.length).map elem_id_string ∧
      ∀ i, i < es.length →
        (s.register_elements now es).1[i]? =
          some (elem_id_string (s.element_counter + 1 + i)) ∧
        dictGet (elem_id_string (s.element_counter + 1 + i))
          (s.register_elements now es).2.element_map = es[i]? := by
  intro now es s
  refine ⟨?_, register_elements_ids now es s, ?_⟩
  · rw [register_elements_ids]
    simp
  · intro i hi
    constructor
    · rw [register_elements_ids]
      rw [List.getElem?_map, List.getElem?_range' _ _ hi]
      simp
    · exact register_elements_get_new now es s i hi

/-- Witness for C8 on a concrete two-element batch. -/
theorem c8_witness :
    ((sFresh.register_element 0 ⟨1, false⟩).2.register_elements 1
        [⟨2, false⟩, ⟨3, true⟩]).1.length = 2 ∧
    ((sFresh.register_element 0 ⟨1, false⟩).2.register_elements 1
        [⟨2, false⟩, ⟨3, true⟩]).1[1]? = some "elem_3" ∧
    dictGet "elem_3"
      ((sFresh.register_element 0 ⟨1, false⟩).2.register_elements 1
        [⟨2, false⟩, ⟨3, true⟩]).2.element_map = some ⟨3, true⟩ := by
  have h := c8_register_elements_batch 1 [⟨2, false⟩, ⟨3, true⟩]
    (sFresh.register_element 0 ⟨1, false⟩).2
  refine ⟨h.1, ?_, ?_⟩
  · have h2 := (h.2.2 1 (by decide)).1
    simpa using h2
  · have h3 := (h.2.2 1 (by decide)).2
    simpa using h3

/-! ## C1 (amended): uniqueness of issued IDs between clears -/

theorem get_element_counter (now : Int) (eid : String) (s : BrowserSession) :
    (s.get_element now eid).2.element_counter = s.element_counter := by
  unfold BrowserSession.get_element
  cases h : dictGet eid s.element_map with
  | none => rfl
  | some e => cases hs : e.stale <;> simp [hs, BrowserSession.touch]

theorem remove_element_counter (eid : String) (s : BrowserSession) :
    (s.remove_element eid).2.element_counter = s.element_counter := by
  unfold BrowserSession.remove_element
  cases h : dictGet eid s.element_map <;> simp

theorem applyElemOp_counter (op : ElemOp) (s : BrowserSession)
    (h : op ≠ .clearOp) :
    (applyElemOp op s).element_counter = s.element_counter + elemOpCount op := by
  cases op with
  | registerOp now e =>
    simpa [applyElemOp, elemOpCount] using register_element_counter now e s
  | registerManyOp now es =>
    simpa [applyElemOp, elemOpCount] using register_elements_counter now es s
  | getElemOp now eid =>
    simpa [applyElemOp, elemOpCount] using get_element_counter now eid s
  | removeElemOp eid =>
    simpa [applyElemOp, elemOpCount] using remove_element_counter eid s
  | clearOp => exact absurd rfl h
  | touchOp now => simp [applyElemOp, elemOpCount, BrowserSession.touch]

theorem elemOpIds_range' (op : ElemOp) (s : BrowserSession) :
    elemOpIds op s =
      (List.range' (s.element_counter + 1) (elemOpCount op)).map elem_id_string := by
  cases op with
  | registerOp now e =>
    simp [elemOpIds, elemOpCount, register_element_fst, List.range'_succ]
  | registerManyOp now es =>
    simpa [elemOpIds, elemOpCount] using register_elements_ids now es s
  | getElemOp now eid => simp [elemOpIds, elemOpCount]
  | removeElemOp eid => simp [elemOpIds, elemOpCount]
  | clearOp => simp [elemOpIds, elemOpCount]
  | touchOp now => simp [elemOpIds, elemOpCount]

theorem issuedIds_characterization (ops : List ElemOp) (s : BrowserSession)
    (h : ElemOp.clearOp ∉ ops) :
    issuedIds ops s =
      (List.range' (s.element_counter + 1) (issuedTotal ops)).map elem_id_string ∧
    (applyElemOps ops s).element_counter = s.element_counter + issuedTotal ops := by
  induction ops generalizing s with
  | nil => simp [issuedIds, issuedTotal, applyElemOps]
  | cons op rest ih =>
    have hop : op ≠ .clearOp := by
      intro hc
      exact h (by simp [hc])
    have hrest : ElemOp.clearOp ∉ rest := fun hc => h (List.mem_cons_of_mem _ hc)
    obtain ⟨ih1, ih2⟩ := ih (applyElemOp op s) hrest
    have htot : issuedTotal (op :: rest) = elemOpCount op + issuedTotal rest := by
      simp [issuedTotal]
    constructor
    · simp only [issuedIds]
      rw [elemOpIds_range', ih1, applyElemOp_counter op s hop, htot,
          ← List.map_append,
          show s.element_counter + elemOpCount op + 1
              = s.element_counter + 1 + elemOpCount op by omega,
          List.range'_append_1, Nat.add_comm (issuedTotal rest) (elemOpCount op)]
    · have hstep : (applyElemOps (op :: rest) s).element_counter
          = (applyElemOp op s).element_counter + issuedTotal rest := ih2
      rw [applyElemOp_counter op s hop] at hstep
      rw [hstep, htot]
      omega

/-- C1 (amended): over any span of a session's lifetime containing no
`clear_elements` call, the handle IDs issued by `register_element` and
`register_elements` are exactly the formatted consecutive counter values
continuing from the current counter — so the counter is monotonically
increasing and the issued IDs are pairwise distinct.  (`clear_elements`,
however, resets the counter to 0, so an ID issued after a clear can
equal an ID issued before it — see the counterexample.) -/
theorem c1_amended_ids_unique_between_clears :
    ∀ (ops : List ElemOp) (s : BrowserSession),
      ElemOp.clearOp ∉ ops →
      issuedIds ops s =
        (List.range' (s.element_counter + 1) (issuedTotal ops)).map elem_id_string ∧
      (issuedIds ops s).Nodup ∧
      (applyElemOps ops s).element_counter = s.element_counter + issuedTotal ops := by
  intro ops s h
  obtain ⟨h1, h2⟩ := issuedIds_characterization ops s h
  exact ⟨h1, h1 ▸ List.Nodup.map elem_id_string_injective (List.nodup_range' _ _), h2⟩

/-- Witness for amended C1: a concrete clear-free call sequence issues
distinct consecutive IDs. -/
theorem c1_amended_witness :
    issuedIds
        [.registerOp 0 ⟨1, false⟩, .removeElemOp "elem_1",
         .registerManyOp 1 [⟨2, false⟩, ⟨3, false⟩], .getElemOp 2 "elem_2"]
        sFresh =
      ["elem_1", "elem_2", "elem_3"] ∧
    (issuedIds
        [.registerOp 0 ⟨1, false⟩, .removeElemOp "elem_1",
         .registerManyOp 1 [⟨2, false⟩, ⟨3, false⟩], .getElemOp 2 "elem_2"]
        sFresh).Nodup := by
  have h := c1_amended_ids_unique_between_clears
    [.registerOp 0 ⟨1, false⟩, .removeElemOp "elem_1",
     .registerManyOp 1 [⟨2, false⟩, ⟨3, false⟩], .getElemOp 2 "elem_2"]
    sFresh (by decide)
  refine ⟨?_, h.2.1⟩
  rw [h.1]
  rfl

/-! ## C2 (amended): stale handles are purged once and stay unresolvable
until reissued -/

/-- Every key in the element registry was issued by the counter: it is
`elem_id_string j` for some `1 ≤ j ≤ _element_counter`.  Holds for every
session state reachable from a freshly created session. -/
def elem_registry_inv (s : BrowserSession) : Prop :=
  ∀ p ∈ s.element_map, ∃ j, 1 ≤ j ∧ j ≤ s.element_counter ∧ p.1 = elem_id_string j

theorem elem_registry_inv_register_element (now : Int) (e : WebElement)
    (s : BrowserSession) (h : elem_registry_inv s) :
    elem_registry_inv (s.register_element now e).2 := by
  intro p hp
  rw [show (s.register_element now e).2.element_map
        = dictInsert (elem_id_string (s.element_counter + 1)) e s.element_map
      from rfl] at hp
  rw [register_element_counter]
  rcases mem_dictInsert hp with hp | hp
  · exact ⟨s.element_counter + 1, by omega, by omega, by rw [hp]⟩
  · obtain ⟨j, hj1, hj2, hj3⟩ := h p hp
    exact ⟨j, hj1, by omega, hj3⟩

theorem elem_registry_inv_register_elements (now : Int) (es : List WebElement)
    (s : BrowserSession) (h : elem_registry_inv s) :
    elem_registry_inv (s.register_elements now es).2 := by
  induction es generalizing s with
  | nil => exact h
  | cons e rest ih =>
    exact ih (s.register_element now e).2 (elem_registry_inv_register_element now e s h)

theorem get_element_map_mem (now : Int) (eid : String) (s : BrowserSession) :
    ∀ p ∈ (s.get_element now eid).2.element_map, p ∈ s.element_map := by
  intro p hp
  unfold BrowserSession.get_element at hp
  cases h : dictGet eid s.element_map with
  | none => simpa [h] using hp
  | some e =>
    cases hs : e.stale with
    | true =>
      simp only [h, hs, if_true] at hp
      exact (List.mem_filter.1 hp).1
    | false => simpa [h, hs, BrowserSession.touch] using hp

theorem elem_registry_inv_applyElemOp (op : ElemOp) (s : BrowserSession)
    (h : elem_registry_inv s) : elem_registry_inv (applyElemOp op s) := by
  cases op with
  | registerOp now e => exact elem_registry_inv_register_element now e s h
  | registerManyOp now es => exact elem_registry_inv_register_elements now es s h
  | getElemOp now eid =>
    intro p hp
    have hp' : p ∈ (s.get_element now eid).2.element_map := hp
    have hgoal : ∃ j, 1 ≤ j ∧ j ≤ (s.get_element now eid).2.element_counter ∧
        p.1 = elem_id_string j := by
      rw [get_element_counter]
      exact h p (get_element_map_mem now eid s p hp')
    exact hgoal
  | removeElemOp eid =>
    intro p hp
    have hp' : p ∈ (s.remove_element eid).2.element_map := hp
    have hgoal : ∃ j, 1 ≤ j ∧ j ≤ (s.remove_element eid).2.element_counter ∧
        p.1 = elem_id_string j := by
      rw [remove_element_counter]
      unfold BrowserSession.remove_element at hp'
      cases hg : dictGet eid s.element_map with
      | none =>
        simp only [hg] at hp'
        exact h p hp'
      | some e =>
        simp only [hg] at hp'
        exact h p (List.mem_filter.1 hp').1
    exact hgoal
  | clearOp =>
    intro p hp
    simp [applyElemOp, BrowserSession.clear_elements] at hp
  | touchOp now =>
    intro p hp
    exact h p hp

theorem elem_registry_inv_applyElemOps (ops : List ElemOp) (s : BrowserSession)
    (h : elem_registry_inv s) : elem_registry_inv (applyElemOps ops s) := by
  induction ops generalizing s with
  | nil => exact h
  | cons op rest ih => exact ih _ (elem_registry_inv_applyElemOp op s h)

theorem elem_registry_inv_new_session (sid : String) (d : Driver) (b : String)
    (now : Int) (rv : Bool) :
    elem_registry_inv (SessionManager.new_session sid d b now rv) := by
  intro p hp
  simp [SessionManager.new_session] at hp

/-- One clear-free call cannot resurrect a purged ID: if `eid` is an
issued-format ID within the current counter range and currently absent,
it stays absent and within range. -/
theorem gone_step (op : ElemOp) (hop : op ≠ ElemOp.clearOp) (eid : String)
    (j : Nat) (t : BrowserSession) (hj2 : j ≤ t.element_counter)
    (hid : eid = elem_id_string j)
    (hnone : dictGet eid t.element_map = none) :
    dictGet eid (applyElemOp op t).element_map = none ∧
    j ≤ (applyElemOp op t).element_counter := by
  cases op with
  | registerOp now e =>
    have hne : elem_id_string (t.element_counter + 1) ≠ eid := by
      rw [hid]
      intro hcontra
      have := elem_id_string_injective hcontra
      omega
    constructor
    · rw [show (applyElemOp (.registerOp now e) t).element_map
            = dictInsert (elem_id_string (t.element_counter + 1)) e t.element_map
          from rfl]
      rw [dictGet_insert_ne _ _ _ _ hne]
      exact hnone
    · rw [show (applyElemOp (.registerOp now e) t).element_counter
            = t.element_counter + 1 from rfl]
      omega
  | registerManyOp now es =>
    constructor
    · rw [show applyElemOp (.registerManyOp now es) t
            = (t.register_elements now es).2 from rfl, hid,
          register_elements_get_stable now es t j hj2, ← hid]
      exact hnone
    · rw [show applyElemOp (.registerManyOp now es) t
            = (t.register_elements now es).2 from rfl,
          register_elements_counter]
      omega
  | getElemOp now' eid' =>
    refine ⟨?_, by rw [show applyElemOp (.getElemOp now' eid') t
        = (t.get_element now' eid').2 from rfl, get_element_counter]; exact hj2⟩
    rw [show applyElemOp (.getElemOp now' eid') t = (t.get_element now' eid').2 from rfl]
    unfold BrowserSession.get_element
    cases hg : dictGet eid' t.element_map with
    | none => simpa using hnone
    | some e =>
      cases hs : e.stale with
      | true =>
        simp only [hs, if_true]
        by_cases heq : eid' = eid
        · subst heq
          rw [hg] at hnone
          cases hnone
        · simpa [dictGet_remove_ne _ _ _ heq] using hnone
      | false => simpa [hs, BrowserSession.touch] using hnone
  | removeElemOp eid' =>
    refine ⟨?_, by rw [show applyElemOp (.removeElemOp eid') t
        = (t.remove_element eid').2 from rfl, remove_element_counter]; exact hj2⟩
    rw [show applyElemOp (.removeElemOp eid') t = (t.remove_element eid').2 from rfl]
    unfold BrowserSession.remove_element
    cases hg : dictGet eid' t.element_map with
    | none => simpa using hnone
    | some e =>
      simp only
      by_cases heq : eid' = eid
      · subst heq
        simpa using dictGet_remove_self eid' t.element_map
      · simpa [dictGet_remove_ne _ _ _ heq] using hnone
  | clearOp => exact absurd rfl hop
  | touchOp now => exact ⟨hnone, hj2⟩

theorem gone_trace (ops : List ElemOp) (h : ElemOp.clearOp ∉ ops) (eid : String)
    (j : Nat) (t : BrowserSession) (hj2 : j ≤ t.element_counter)
    (hid : eid = elem_id_string j)
    (hnone : dictGet eid t.element_map = none) :
    dictGet eid (applyElemOps ops t).element_map = none := by
  induction ops generalizing t with
  | nil => exact hnone
  | cons op rest ih =>
    have hop : op ≠ ElemOp.clearOp := by
      intro hc
      exact h (by simp [hc])
    have hrest : ElemOp.clearOp ∉ rest := fun hc => h (List.mem_cons_of_mem _ hc)
    obtain ⟨h1, h2⟩ := gone_step op hop eid j t hj2 hid hnone
    exact ih hrest _ h2 h1

/-- C2 (amended): `get_element` on a handle whose reference is stale
fails with `ElementStaleError` and removes the entry as a side effect
(exactly once); afterwards, from any session state reachable from a
fresh session, every subsequent `get_element` with that ID fails with
`ElementNotFoundError` as long as no `clear_elements` call intervenes.
(A `clear_elements` call resets the counter, after which the ID can be
reissued and resolve again — see the counterexample.) -/
theorem c2_amended_stale_purged_then_not_found :
    (∀ (now : Int) (eid : String) (s : BrowserSession) (e : WebElement),
       dictGet eid s.element_map = some e → e.stale = true →
       s.get_element now eid =
         (.error (.elementStale eid),
          { s with element_map := dictRemove eid s.element_map })) ∧
    (∀ (sid : String) (d : Driver) (b : String) (t0 : Int) (rv : Bool)
       (ops0 : List ElemOp) (now : Int) (eid : String) (s' : BrowserSession),
       (applyElemOps ops0 (SessionManager.new_session sid d b t0 rv)).get_element
           now eid = (.error (.elementStale eid), s') →
       ∀ ops : List ElemOp, ElemOp.clearOp ∉ ops → ∀ t : Int,
         ((applyElemOps ops s').get_element t eid).1 =
           .error (.elementNotFound eid)) := by
  constructor
  · intro now eid s e hget hstale
    simp [BrowserSession.get_element, hget, hstale]
  · intro sid d b t0 rv ops0 now eid s' h ops hops t
    set s0 := applyElemOps ops0 (SessionManager.new_session sid d b t0 rv) with hs0
    have hinv : elem_registry_inv s0 :=
      elem_registry_inv_applyElemOps ops0 _
        (elem_registry_inv_new_session sid d b t0 rv)
    -- invert the stale-access hypothesis
    have hmain : ∃ e, dictGet eid s0.element_map = some e ∧ e.stale = true ∧
        s' = { s0 with element_map := dictRemove eid s0.element_map } := by
      unfold BrowserSession.get_element at h
      cases hg : dictGet eid s0.element_map with
      | none => simp [hg] at h
      | some e =>
        cases hs : e.stale with
        | true =>
          refine ⟨e, rfl, hs, ?_⟩
          simp only [hg, hs, if_true] at h
          exact (congrArg Prod.snd h).symm
        | false => simp [hg, hs] at h
    obtain ⟨e, hg, hs, hs'⟩ := hmain
    obtain ⟨j, hj1, hj2, hj3⟩ := hinv (eid, e) (dictGet_mem hg)
    have hnone : dictGet eid s'.element_map = none := by
      rw [hs']
      exact dictGet_remove_self eid s0.element_map
    have hcount : j ≤ s'.element_counter := by
      rw [hs']
      exact hj2
    have hfinal := gone_trace ops hops eid j s' hcount hj3 hnone
    simp [BrowserSession.get_element, hfinal]

/-- Witness for amended C2 on a concrete trace: register a stale
element, observe `ElementStaleError` once, then (with no clear) a later
`get_element` on the same ID yields `ElementNotFoundError`. -/
theorem c2_amended_witness :
    BrowserSession.get_element 2 "elem_1"
        ((SessionManager.new_session "sess_w" d0 "chrome" 0 false).register_element 1
          ⟨7, true⟩).2 =
      (.error (.elementStale "elem_1"),
       { session_id := "sess_w", driver := d0, browser := "chrome",
         created_at := 0, last_activity := 1, capabilities := [],
         record_video := false, selenium_session_id := some "grid0",
         element_map := [], element_counter := 1 }) ∧
    ((applyElemOps [.registerOp 3 ⟨8, false⟩]
        { session_id := "sess_w", driver := d0, browser := "chrome",
          created_at := 0, last_activity := 1, capabilities := [],
          record_video := false, selenium_session_id := some "grid0",
          element_map := [], element_counter := 1 }).get_element 5 "elem_1").1 =
      .error (.elementNotFound "elem_1") := by
  constructor
  · exact (c2_amended_stale_purged_then_not_found.1 2 "elem_1"
      ((SessionManager.new_session "sess_w" d0 "chrome" 0 false).register_element 1
        ⟨7, true⟩).2 ⟨7, true⟩ (by decide) (by decide)).trans (by rfl)
  · exact c2_amended_stale_purged_then_not_found.2 "sess_w" d0 "chrome" 0 false
      [.registerOp 1 ⟨7, true⟩] 2 "elem_1" _ rfl [.registerOp 3 ⟨8, false⟩]
      (by decide) 5

/-! ## C4 (amended): factory failure leaves the registry unchanged -/

/-- C4 (amended): whenever the factory call fails, no session is
registered (the manager is returned unchanged) and the factory's error is
propagated to the caller; when the failure is the driver-creation call
itself (a `WebDriverException`), the surfaced error is
`GridConnectionError` wrapping the grid URL and the underlying message.
An unsupported browser type instead surfaces the factory's plain
`ValueError`, unwrapped (see the counterexample).  A session is inserted
only when the factory call succeeds. -/
theorem c4_amended_factory_failure :
    (∀ (f : DriverFactory) (outcome : GridOutcome) (uuid_hex : String) (now : Int)
       (browser : String) (rv : Bool) (m : SessionManager) (e : MCPError),
       m.sessions.length < m.max_sessions →
       f.create browser outcome = .error e →
       m.create_session f outcome uuid_hex now browser rv = (.error e, m) ∧
       (∀ msg, outcome = .webDriverFailure msg →
          supported_browsers.contains (str_lower browser) = true →
          e = .gridConnection f.grid_url msg ∧ e.is_grid_connection = true)) ∧
    (∀ (f : DriverFactory) (outcome : GridOutcome) (uuid_hex : String) (now : Int)
       (browser : String) (rv : Bool) (m : SessionManager),
       (m.create_session f outcome uuid_hex now browser rv).2 ≠ m →
       ∃ d sess, f.create browser outcome = .ok d ∧
         (m.create_session f outcome uuid_hex now browser rv).1 = .ok sess) := by
  constructor
  · intro f outcome uuid_hex now browser rv m e hcap hf
    constructor
    · simp [SessionManager.create_session, Nat.not_le.2 hcap, hf]
    · intro msg houtcome hsup
      subst houtcome
      simp only [DriverFactory.create, hsup, if_true] at hf
      have he : e = .gridConnection f.grid_url msg := by
        cases hf
        rfl
      exact ⟨he, by rw [he]; rfl⟩
  · intro f outcome uuid_hex now browser rv m hne
    by_cases hcap : m.sessions.length ≥ m.max_sessions
    · exact absurd (by simp [SessionManager.create_session, hcap]) hne
    · cases hf : f.create browser outcome with
      | error e =>
        exact absurd (by simp [SessionManager.create_session, hcap, hf]) hne
      | ok d =>
        refine ⟨d, SessionManager.new_session ("sess_" ++ uuid_hex) d browser now rv,
          rfl, ?_⟩
        simp [SessionManager.create_session, hcap, hf]

/-- Witness for amended C4: a Grid connection failure surfaces as
`GridConnectionError` wrapping the cause, with the registry unchanged. -/
theorem c4_amended_witness :
    SessionManager.create_session fac0 (.webDriverFailure "connection refused")
        "u2" 0 "chrome" false (SessionManager.init 10 900 300) =
      (.error (.gridConnection "http://grid:4444" "connection refused"),
       SessionManager.init 10 900 300) ∧
    (MCPError.gridConnection "http://grid:4444" "connection refused").is_grid_connection
      = true := by
  have h := (c4_amended_factory_failure.1 fac0 (.webDriverFailure "connection refused")
    "u2" 0 "chrome" false (SessionManager.init 10 900 300)
    (.gridConnection "http://grid:4444" "connection refused") (by decide) rfl)
  exact ⟨h.1, (h.2 "connection refused" rfl (by decide)).2⟩

/-! ## C9: the sweeper never starts a pass after shutdown fires -/

/-- C9: the loop performs exactly one scan-and-evict pass per wait that
timed out *before* the shutdown signal was observed (the leading
`waitTimedOut` prefix of the boundary observations), and therefore: a
wait that completes because the signal fired contributes no pass, and
once any boundary observes the signal (or cancellation) the loop exits
with no further pass — the pass count never exceeds the index of such a
boundary. -/
theorem c9_sweeper_cooperative_shutdown :
    ∀ events : List LoopEvent,
      sweep_loop events =
        List.replicate
          ((events.takeWhile (fun ev => ev == LoopEvent.waitTimedOut)).length)
          .sweepPass ∧
      ∀ i, i < events.length → events[i]? ≠ some LoopEvent.waitTimedOut →
        (sweep_loop events).length ≤ i := by
  intro events
  induction events with
  | nil =>
    refine ⟨rfl, ?_⟩
    intro i hi _
    simp at hi
  | cons ev rest ih =>
    cases ev with
    | waitTimedOut =>
      refine ⟨?_, ?_⟩
      · simp only [sweep_loop, List.takeWhile_cons]
        simp [ih.1, List.replicate_succ]
      · intro i hi hne
        cases i with
        | zero => simp at hne
        | succ i' =>
          have h := ih.2 i' (by simpa using Nat.lt_of_succ_lt_succ hi)
            (by simpa using hne)
          simp only [sweep_loop, List.length_cons]
          omega
    | setBeforeCheck =>
      refine ⟨by simp [sweep_loop, List.takeWhile_cons], ?_⟩
      intro i _ _
      simp [sweep_loop]
    | waitSignalled =>
      refine ⟨by simp [sweep_loop, List.takeWhile_cons], ?_⟩
      intro i _ _
      simp [sweep_loop]
    | waitCancelled =>
      refine ⟨by simp [sweep_loop, List.takeWhile_cons], ?_⟩
      intro i _ _
      simp [sweep_loop]

/-- Witness for C9: two timed-out waits, then the signal fires during
the third wait — exactly two passes run, none at or after the signal. -/
theorem c9_witness :
    sweep_loop [.waitTimedOut, .waitTimedOut, .waitSignalled, .waitTimedOut] =
      [.sweepPass, .sweepPass] ∧
    (sweep_loop [.waitTimedOut, .waitTimedOut, .waitSignalled, .waitTimedOut]).length
      ≤ 2 := by
  have h := c9_sweeper_cooperative_shutdown
    [.waitTimedOut, .waitTimedOut, .waitSignalled, .waitTimedOut]
  exact ⟨by rw [h.1]; rfl, h.2 2 (by decide) (by decide)⟩

/-! ## C7: expiry selection and sweep eviction -/

theorem mem_get_expired {now : Int} {m : SessionManager} {sid : String}
    {r : SessionManager.ExpiryReason} :
    (sid, r) ∈ m.get_expired_sessions now ↔
      ∃ s, (sid, s) ∈ m.sessions ∧
        SessionManager.expiry_check now m.max_lifetime_seconds
          m.max_idle_seconds s = some r := by
  unfold SessionManager.get_expired_sessions
  rw [List.mem_filterMap]
  constructor
  · rintro ⟨⟨k, s⟩, hmem, hf⟩
    rcases Option.map_eq_some'.1 hf with ⟨r', hr', heq⟩
    injection heq with h1 h2
    subst h1
    subst h2
    exact ⟨s, hmem, hr'⟩
  · rintro ⟨s, hmem, hcheck⟩
    exact ⟨(sid, s), hmem, by simp [hcheck]⟩

theorem close_session_get_none (sid sid' : String) (m : SessionManager)
    (h : dictGet sid m.sessions = none) :
    dictGet sid ((m.close_session sid').2).sessions = none := by
  unfold SessionManager.close_session
  cases hg : dictGet sid' m.sessions with
  | none => simpa using h
  | some s =>
    by_cases heq : sid' = sid
    · subst heq
      simpa using dictGet_remove_self sid' m.sessions
    · simpa [dictGet_remove_ne _ _ _ heq] using h

theorem close_session_self_none (sid : String) (m : SessionManager) :
    dictGet sid ((m.close_session sid).2).sessions = none := by
  unfold SessionManager.close_session
  cases hg : dictGet sid m.sessions with
  | none => simpa using hg
  | some s => simpa using dictGet_remove_self sid m.sessions

theorem close_many_removes (ids : List String) (m : SessionManager) (sid : String)
    (h : sid ∈ ids ∨ dictGet sid m.sessions = none) :
    dictGet sid ((SessionManager.close_many ids m).2).sessions = none := by
  induction ids generalizing m with
  | nil =>
    rcases h with h | h
    · simp at h
    · exact h
  | cons x rest ih =>
    have hgoal : dictGet sid
        ((SessionManager.close_many rest ((m.close_session x).2)).2).sessions = none := by
      rcases h with h | h
      · rcases List.mem_cons.1 h with rfl | hmem
        · exact ih _ (Or.inr (close_session_self_none sid m))
        · exact ih _ (Or.inl hmem)
      · exact ih _ (Or.inr (close_session_get_none sid x m h))
    exact hgoal

/-- C7: a scan selects a registered session iff its age strictly exceeds
`max_lifetime_seconds` or its idle time strictly exceeds
`max_idle_seconds` (each alone sufficient); when both hold, the
lifetime reason is the one reported; every selected session is evicted
by `sweep_expired` via `close_session`, so in particular an idle-expired
session is absent after the sweep and `get_session` on its ID fails
with `SessionNotFoundError`. -/
theorem c7_expiry_selection_and_eviction :
    ∀ (now : Int) (m : SessionManager),
      (m.sessions.map Prod.fst).Nodup →
      ∀ (sid : String) (s : BrowserSession), dictGet sid m.sessions = some s →
        ((∃ r, (sid, r) ∈ m.get_expired_sessions now) ↔
          (now - s.created_at > m.max_lifetime_seconds ∨
           now - s.last_activity > m.max_idle_seconds)) ∧
        ((now - s.created_at > m.max_lifetime_seconds ∧
          now - s.last_activity > m.max_idle_seconds) →
          (sid, .lifetime) ∈ m.get_expired_sessions now ∧
          (sid, .idle) ∉ m.get_expired_sessions now) ∧
        (∀ r, (sid, r) ∈ m.get_expired_sessions now →
           dictGet sid ((m.sweep_expired now).2).sessions = none) ∧
        (now - s.last_activity > m.max_idle_seconds →
           dictGet sid ((m.sweep_expired now).2).sessions = none ∧
           ∀ t, ((m.sweep_expired now).2).get_session t sid =
             (.error (.sessionNotFound sid), (m.sweep_expired now).2)) := by
  intro now m hnd sid s h
  have huniq : ∀ s', (sid, s') ∈ m.sessions → s' = s := by
    intro s' hmem'
    have := dictGet_eq_of_mem_nodup hnd hmem'
    rw [h] at this
    exact (Option.some.inj this).symm
  have hevict : ∀ r, (sid, r) ∈ m.get_expired_sessions now →
      dictGet sid ((m.sweep_expired now).2).sessions = none := by
    intro r hr
    have hin : sid ∈ (m.get_expired_sessions now).map Prod.fst :=
      List.mem_map_of_mem Prod.fst hr
    exact close_many_removes _ m sid (Or.inl hin)
  refine ⟨?_, ?_, hevict, ?_⟩
  · constructor
    · rintro ⟨r, hr⟩
      obtain ⟨s', hmem', hcheck⟩ := mem_get_expired.1 hr
      rw [huniq s' hmem'] at hcheck
      unfold SessionManager.expiry_check at hcheck
      by_cases h1 : now - s.created_at > m.max_lifetime_seconds
      · exact Or.inl h1
      · by_cases h2 : now - s.last_activity > m.max_idle_seconds
        · exact Or.inr h2
        · simp [h1, h2] at hcheck
    · intro hor
      by_cases h1 : now - s.created_at > m.max_lifetime_seconds
      · refine ⟨.lifetime, mem_get_expired.2 ⟨s, dictGet_mem h, ?_⟩⟩
        simp [SessionManager.expiry_check, h1]
      · have h2 : now - s.last_activity > m.max_idle_seconds := by
          rcases hor with hor | hor
          · exact absurd hor h1
          · exact hor
        refine ⟨.idle, mem_get_expired.2 ⟨s, dictGet_mem h, ?_⟩⟩
        simp [SessionManager.expiry_check, h1, h2]
  · intro ⟨h1, h2⟩
    constructor
    · refine mem_get_expired.2 ⟨s, dictGet_mem h, ?_⟩
      simp [SessionManager.expiry_check, h1]
    · intro hidle
      obtain ⟨s', hmem', hcheck⟩ := mem_get_expired.1 hidle
      rw [huniq s' hmem'] at hcheck
      simp [SessionManager.expiry_check, h1] at hcheck
  · intro h2
    have hmem : (sid, SessionManager.ExpiryReason.lifetime) ∈ m.get_expired_sessions now ∨
        (sid, SessionManager.ExpiryReason.idle) ∈ m.get_expired_sessions now := by
      by_cases h1 : now - s.created_at > m.max_lifetime_seconds
      · exact Or.inl (mem_get_expired.2 ⟨s, dictGet_mem h,
          by simp [SessionManager.expiry_check, h1]⟩)
      · exact Or.inr (mem_get_expired.2 ⟨s, dictGet_mem h,
          by simp [SessionManager.expiry_check, h1, h2]⟩)
    have hnone : dictGet sid ((m.sweep_expired now).2).sessions = none := by
      rcases hmem with hmem | hmem
      · exact hevict _ hmem
      · exact hevict _ hmem
    refine ⟨hnone, ?_⟩
    intro t
    simp [SessionManager.get_session, hnone]

/-- A session with both limits exceeded at scan time 10. -/
def sBoth : BrowserSession :=
  { session_id := "sess_x", driver := d0, browser := "chrome",
    created_at := -200, last_activity := -100, capabilities := [],
    record_video := false, selenium_session_id := some "grid0",
    element_map := [], element_counter := 0 }

/-- A session with only the idle limit exceeded at scan time 10. -/
def sIdle : BrowserSession :=
  { session_id := "sess_y", driver := d0, browser := "chrome",
    created_at := 0, last_activity := 0, capabilities := [],
    record_video := false, selenium_session_id := some "grid0",
    element_map := [], element_counter := 0 }

def mSweep : SessionManager :=
  { max_sessions := 10, max_lifetime_seconds := 100, max_idle_seconds := 5,
    sessions := [("sess_x", sBoth), ("sess_y", sIdle)] }

/-- Witness for C7: with both limits exceeded the lifetime reason is
reported; the idle-only session is gone after the sweep and
`get_session` on it fails. -/
theorem c7_witness :
    ("sess_x", SessionManager.ExpiryReason.lifetime) ∈ mSweep.get_expired_sessions 10 ∧
    dictGet "sess_y" ((mSweep.sweep_expired 10).2).sessions = none ∧
    ((mSweep.sweep_expired 10).2).get_session 11 "sess_y" =
      (.error (.sessionNotFound "sess_y"), (mSweep.sweep_expired 10).2) := by
  have hx := c7_expiry_selection_and_eviction 10 mSweep (by decide) "sess_x" sBoth
    (by decide)
  have hy := c7_expiry_selection_and_eviction 10 mSweep (by decide) "sess_y" sIdle
    (by decide)
  exact ⟨(hx.2.1 ⟨by decide, by decide⟩).1, (hy.2.2.2 (by decide)).1,
    (hy.2.2.2 (by decide)).2 11⟩

/-! ## C6: create then get returns the same session object -/

/-- The fields of a `BrowserSession` that are never reassigned after
construction: Python object identity is tracked by their joint value
(the mutable fields are `last_activity`, `_element_map`,
`_element_counter`). -/
def ident_core (s : BrowserSession) :
    String × Driver × String × Int × List (String × String) × Bool × Option String :=
  (s.session_id, s.driver, s.browser, s.created_at, s.capabilities,
   s.record_video, s.selenium_session_id)

theorem touch_ident (now : Int) (s : BrowserSession) :
    ident_core (s.touch now) = ident_core s := rfl

theorem register_elements_ident (now : Int) (es : List WebElement)
    (s : BrowserSession) :
    ident_core (s.register_elements now es).2 = ident_core s := by
  induction es generalizing s with
  | nil => rfl
  | cons e rest ih => exact (ih (s.register_element now e).2).trans rfl

theorem get_element_ident (now : Int) (eid : String) (s : BrowserSession) :
    ident_core (s.get_element now eid).2 = ident_core s := by
  unfold BrowserSession.get_element
  cases hg : dictGet eid s.element_map with
  | none => rfl
  | some e => cases hs : e.stale <;> simp [hs, BrowserSession.touch, ident_core]

theorem applyElemOp_ident (op : ElemOp) (s : BrowserSession) :
    ident_core (applyElemOp op s) = ident_core s := by
  cases op with
  | registerOp now e => rfl
  | registerManyOp now es => exact register_elements_ident now es s
  | getElemOp now eid => exact get_element_ident now eid s
  | removeElemOp eid =>
    show ident_core (s.remove_element eid).2 = ident_core s
    unfold BrowserSession.remove_element
    cases hg : dictGet eid s.element_map <;> simp [ident_core]
  | clearOp => rfl
  | touchOp now => rfl

theorem close_many_get_or (ids : List String) (m : SessionManager) (sid : String) :
    dictGet sid ((SessionManager.close_many ids m).2).sessions = none ∨
    dictGet sid ((SessionManager.close_many ids m).2).sessions =
      dictGet sid m.sessions := by
  induction ids generalizing m with
  | nil => exact Or.inr rfl
  | cons x rest ih =>
    have hstep : dictGet sid ((m.close_session x).2).sessions = none ∨
        dictGet sid ((m.close_session x).2).sessions = dictGet sid m.sessions := by
      unfold SessionManager.close_session
      cases hg : dictGet x m.sessions with
      | none => exact Or.inr rfl
      | some s =>
        by_cases heq : x = sid
        · subst heq
          exact Or.inl (by simpa using dictGet_remove_self x m.sessions)
        · exact Or.inr (by simpa using dictGet_remove_ne _ _ _ heq)
    have hres : dictGet sid
        ((SessionManager.close_many rest ((m.close_session x).2)).2).sessions = none ∨
        dictGet sid
          ((SessionManager.close_many rest ((m.close_session x).2)).2).sessions =
          dictGet sid m.sessions := by
      rcases ih ((m.close_session x).2) with h | h
      · exact Or.inl h
      · rcases hstep with h' | h'
        · exact Or.inl (h.trans h')
        · exact Or.inr (h.trans h')
    exact hres

/-! State equations for the manager operations, conditioned on the
lookup that the source code branches on. -/

theorem create_session_eq_cap (f : DriverFactory) (outcome : GridOutcome)
    (uuid_hex : String) (now : Int) (browser : String) (rv : Bool)
    (m : SessionManager) (hcap : m.sessions.length ≥ m.max_sessions) :
    m.create_session f outcome uuid_hex now browser rv =
      (.error (.sessionLimit m.max_sessions), m) := by
  unfold SessionManager.create_session
  rw [if_pos hcap]

theorem create_session_eq_ferr (f : DriverFactory) (outcome : GridOutcome)
    (uuid_hex : String) (now : Int) (browser : String) (rv : Bool)
    (m : SessionManager) (e : MCPError)
    (hcap : ¬m.sessions.length ≥ m.max_sessions)
    (hf : f.create browser outcome = .error e) :
    m.create_session f outcome uuid_hex now browser rv = (.error e, m) := by
  unfold SessionManager.create_session
  rw [if_neg hcap, hf]

theorem create_session_eq_ok (f : DriverFactory) (outcome : GridOutcome)
    (uuid_hex : String) (now : Int) (browser : String) (rv : Bool)
    (m : SessionManager) (d : Driver)
    (hcap : ¬m.sessions.length ≥ m.max_sessions)
    (hf : f.create browser outcome = .ok d) :
    m.create_session f outcome uuid_hex now browser rv =
      (.ok (SessionManager.new_session ("sess_" ++ uuid_hex) d browser now rv),
       { m with
          sessions := dictInsert ("sess_" ++ uuid_hex)
            (SessionManager.new_session ("sess_" ++ uuid_hex) d browser now rv)
            m.sessions }) := by
  unfold SessionManager.create_session
  rw [if_neg hcap, hf]

theorem get_session_eq_none (now : Int) (sid' : String) (m : SessionManager)
    (hg : dictGet sid' m.sessions = none) :
    m.get_session now sid' = (.error (.sessionNotFound sid'), m) := by
  unfold SessionManager.get_session
  rw [hg]

theorem get_session_eq_some (now : Int) (sid' : String) (m : SessionManager)
    (s : BrowserSession) (hg : dictGet sid' m.sessions = some s) :
    m.get_session now sid' =
      (.ok (s.touch now),
       { m with sessions := dictInsert sid' (s.touch now) m.sessions }) := by
  unfold SessionManager.get_session
  rw [hg]

theorem close_session_eq_none (sid' : String) (m : SessionManager)
    (hg : dictGet sid' m.sessions = none) :
    m.close_session sid' = (⟨false, false, true⟩, m) := by
  unfold SessionManager.close_session
  rw [hg]

theorem close_session_eq_some (sid' : String) (m : SessionManager)
    (s : BrowserSession) (hg : dictGet sid' m.sessions = some s) :
    m.close_session sid' =
      (⟨true, true, !s.driver.quit_fails⟩,
       { m with sessions := dictRemove sid' m.sessions }) := by
  unfold SessionManager.close_session
  rw [hg]

theorem applyOp_elem_eq_none (f : DriverFactory) (sid' : String) (eop : ElemOp)
    (m : SessionManager) (hg : dictGet sid' m.sessions = none) :
    applyOp f (.elemOp sid' eop) m = m := by
  simp only [applyOp]
  rw [hg]

theorem applyOp_elem_eq_some (f : DriverFactory) (sid' : String) (eop : ElemOp)
    (m : SessionManager) (s : BrowserSession)
    (hg : dictGet sid' m.sessions = some s) :
    applyOp f (.elemOp sid' eop) m =
      { m with sessions := dictInsert sid' (applyElemOp eop s) m.sessions } := by
  simp only [applyOp]
  rw [hg]

/-- The per-step preservation behind C6: as long as a step does not
register a session under `sid` itself, any session found under `sid`
afterwards has the same identity core as before. -/
theorem session_ident_step (f : DriverFactory) (op : Op) (m : SessionManager)
    (sid : String) (core : String × Driver × String × Int ×
      List (String × String) × Bool × Option String)
    (hfresh : opCreatesId op ≠ some sid)
    (h : ∀ s', dictGet sid m.sessions = some s' → ident_core s' = core) :
    ∀ s'', dictGet sid (applyOp f op m).sessions = some s'' →
      ident_core s'' = core := by
  cases op with
  | createOp outcome uh now b rv =>
    intro s'' hs''
    have hne : ("sess_" ++ uh) ≠ sid := by
      intro hcontra
      exact hfresh (by simp [opCreatesId, hcontra])
    have hs2 : dictGet sid
        ((m.create_session f outcome uh now b rv).2).sessions = some s'' := hs''
    by_cases hcap : m.sessions.length ≥ m.max_sessions
    · rw [create_session_eq_cap f outcome uh now b rv m hcap] at hs2
      exact h s'' hs2
    · cases hf : f.create b outcome with
      | error e =>
        rw [create_session_eq_ferr f outcome uh now b rv m e hcap hf] at hs2
        exact h s'' hs2
      | ok d =>
        rw [create_session_eq_ok f outcome uh now b rv m d hcap hf] at hs2
        simp only at hs2
        rw [dictGet_insert_ne _ _ _ _ hne] at hs2
        exact h s'' hs2
  | getOp now sid' =>
    intro s'' hs''
    have hs2 : dictGet sid ((m.get_session now sid').2).sessions = some s'' := hs''
    cases hg : dictGet sid' m.sessions with
    | none =>
      rw [get_session_eq_none now sid' m hg] at hs2
      exact h s'' hs2
    | some s =>
      rw [get_session_eq_some now sid' m s hg] at hs2
      simp only at hs2
      by_cases heq : sid' = sid
      · subst heq
        rw [dictGet_insert_self] at hs2
        cases hs2
        exact (touch_ident now s).trans (h s hg)
      · rw [dictGet_insert_ne _ _ _ _ heq] at hs2
        exact h s'' hs2
  | closeOp sid' =>
    intro s'' hs''
    have hs2 : dictGet sid ((m.close_session sid').2).sessions = some s'' := hs''
    cases hg : dictGet sid' m.sessions with
    | none =>
      rw [close_session_eq_none sid' m hg] at hs2
      exact h s'' hs2
    | some s =>
      rw [close_session_eq_some sid' m s hg] at hs2
      simp only at hs2
      by_cases heq : sid' = sid
      · subst heq
        rw [dictGet_remove_self] at hs2
        cases hs2
      · rw [dictGet_remove_ne _ _ _ heq] at hs2
        exact h s'' hs2
  | sweepOp now =>
    intro s'' hs''
    have hs2 : dictGet sid ((SessionManager.close_many
        ((m.get_expired_sessions now).map Prod.fst) m).2).sessions = some s'' := hs''
    rcases close_many_get_or ((m.get_expired_sessions now).map Prod.fst) m sid with
      hcm | hcm
    · rw [hcm] at hs2
      cases hs2
    · rw [hcm] at hs2
      exact h s'' hs2
  | closeAllOp =>
    intro s'' hs''
    have hs2 : dictGet sid ((SessionManager.close_many
        (m.sessions.map Prod.fst) m).2).sessions = some s'' := hs''
    rcases close_many_get_or (m.sessions.map Prod.fst) m sid with hcm | hcm
    · rw [hcm] at hs2
      cases hs2
    · rw [hcm] at hs2
      exact h s'' hs2
  | listOp => exact h
  | elemOp sid' eop =>
    intro s'' hs''
    cases hg : dictGet sid' m.sessions with
    | none =>
      rw [applyOp_elem_eq_none f sid' eop m hg] at hs''
      exact h s'' hs''
    | some s =>
      rw [applyOp_elem_eq_some f sid' eop m s hg] at hs''
      simp only at hs''
      by_cases heq : sid' = sid
      · subst heq
        rw [dictGet_insert_self] at hs''
        cases hs''
        exact (applyElemOp_ident eop s).trans (h s hg)
      · rw [dictGet_insert_ne _ _ _ _ heq] at hs''
        exact h s'' hs''

theorem session_ident_trace (f : DriverFactory) (ops : List Op) (m : SessionManager)
    (sid : String) (core : String × Driver × String × Int ×
      List (String × String) × Bool × Option String)
    (hfresh : ∀ op ∈ ops, opCreatesId op ≠ some sid)
    (h : ∀ s', dictGet sid m.sessions = some s' → ident_core s' = core) :
    ∀ s'', dictGet sid (applyOps f ops m).sessions = some s'' →
      ident_core s'' = core := by
  induction ops generalizing m with
  | nil => exact h
  | cons op rest ih =>
    exact ih (applyOp f op m)
      (fun op' hop' => hfresh op' (List.mem_cons_of_mem _ hop'))
      (session_ident_step f op m sid core (hfresh op (List.mem_cons_self _ _)) h)

theorem create_session_ok_inversion (f : DriverFactory) (outcome : GridOutcome)
    (uuid_hex : String) (now : Int) (browser : String) (rv : Bool)
    (m m' : SessionManager) (sess : BrowserSession)
    (h : m.create_session f outcome uuid_hex now browser rv = (.ok sess, m')) :
    sess.session_id = "sess_" ++ uuid_hex ∧
    dictGet sess.session_id m'.sessions = some sess := by
  by_cases hcap : m.sessions.length ≥ m.max_sessions
  · rw [create_session_eq_cap f outcome uuid_hex now browser rv m hcap] at h
    have := congrArg Prod.fst h
    simp at this
  · cases hf : f.create browser outcome with
    | error e =>
      rw [create_session_eq_ferr f outcome uuid_hex now browser rv m e hcap hf] at h
      have := congrArg Prod.fst h
      simp at this
    | ok d =>
      rw [create_session_eq_ok f outcome uuid_hex now browser rv m d hcap hf] at h
      have h1 := congrArg Prod.fst h
      have h2 := congrArg Prod.snd h
      simp only at h1 h2
      have hsess : SessionManager.new_session ("sess_" ++ uuid_hex) d browser now rv
          = sess := by
        simpa using h1
      have hid : sess.session_id = "sess_" ++ uuid_hex := by
        rw [← hsess]
        rfl
      refine ⟨hid, ?_⟩
      rw [← h2, hid]
      show dictGet ("sess_" ++ uuid_hex)
        (dictInsert ("sess_" ++ uuid_hex)
          (SessionManager.new_session ("sess_" ++ uuid_hex) d browser now rv)
          m.sessions) = some sess
      rw [dictGet_insert_self, hsess]

/-- C6: after a successful `create_session` returning `sess`, along any
subsequent call sequence that does not register a fresh session under
the same (fresh-UUID) ID, as long as `sess`'s ID is still in the
registry the session found there has the same identity core as `sess`
(same object — only its mutable fields `last_activity`,
`_element_map`, `_element_counter` may have changed), and `get_session`
on it succeeds, returning exactly that object touched (its
`last_activity` updated as a side effect); `get_session` with any ID
absent from the registry fails with `SessionNotFoundError`. -/
theorem c6_create_then_get :
    ∀ (f : DriverFactory) (outcome : GridOutcome) (uuid_hex : String) (now0 : Int)
      (browser : String) (rv : Bool) (m m' : SessionManager) (sess : BrowserSession),
      m.create_session f outcome uuid_hex now0 browser rv = (.ok sess, m') →
      ∀ ops : List Op, (∀ op ∈ ops, opCreatesId op ≠ some sess.session_id) →
        (∀ sess', dictGet sess.session_id (applyOps f ops m').sessions = some sess' →
           ident_core sess' = ident_core sess ∧
           ∀ t, (applyOps f ops m').get_session t sess.session_id =
             (.ok (sess'.touch t),
              { applyOps f ops m' with
                 sessions := dictInsert sess.session_id (sess'.touch t)
                   (applyOps f ops m').sessions })) ∧
        (∀ sid, dictGet sid (applyOps f ops m').sessions = none →
           ∀ t, (applyOps f ops m').get_session t sid =
             (.error (.sessionNotFound sid), applyOps f ops m')) := by
  intro f outcome uuid_hex now0 browser rv m m' sess hcreate ops hfresh
  obtain ⟨hid, hbase⟩ := create_session_ok_inversion f outcome uuid_hex now0 browser
    rv m m' sess hcreate
  have htrace := session_ident_trace f ops m' sess.session_id (ident_core sess)
    hfresh
    (by
      intro s' hs'
      rw [hbase] at hs'
      cases hs'
      rfl)
  constructor
  · intro sess' hsess'
    exact ⟨htrace sess' hsess',
      fun t => get_session_eq_some t sess.session_id _ sess' hsess'⟩
  · intro sid hnone t
    exact get_session_eq_none t sid _ hnone

/-- Witness for C6: create a session, touch it via `get_session`, and
observe both the same-identity success path and the
`SessionNotFoundError` miss path. -/
theorem c6_witness :
    ident_core ((SessionManager.new_session "sess_wwww" d0 "chrome" 3 false).touch 5) =
      ident_core (SessionManager.new_session "sess_wwww" d0 "chrome" 3 false) ∧
    ((applyOps fac0 [.getOp 5 "sess_wwww"]
        ((SessionManager.init 5 900 300).create_session fac0 (.driver d0) "wwww" 3
          "chrome" false).2).get_session 7 "sess_zzz").1 =
      .error (.sessionNotFound "sess_zzz") := by
  have h := c6_create_then_get fac0 (.driver d0) "wwww" 3 "chrome" false
    (SessionManager.init 5 900 300)
    ((SessionManager.init 5 900 300).create_session fac0 (.driver d0) "wwww" 3
      "chrome" false).2
    (SessionManager.new_session "sess_wwww" d0 "chrome" 3 false)
    rfl
    [.getOp 5 "sess_wwww"] (by decide)
  refine ⟨?_, ?_⟩
  · exact (h.1 ((SessionManager.new_session "sess_wwww" d0 "chrome" 3 false).touch 5)
      (by decide)).1
  · exact congrArg Prod.fst (h.2 "sess_zzz" (by decide) 7)

end SeleniumMCP
